import Mathlib

/-!
Verification of the RetroStream streaming-client pipeline.

This file gives a shallow embedding of the streaming client
(`FrameBuffer`, the binary frame codec of `StreamClient.parseFrameMessage`,
the frame-processing path `StreamClient.processFrame`, and the connection
state machine of `StreamClient`), translated from the TypeScript sources,
and proves properties of the embedded definitions.

Conventions of the embedding:
- JS arrays of frames become `List` (index 0 = list head = oldest; `push`
  appends at the tail, `shift` removes the head).
- Byte buffers (`ArrayBuffer` / `Uint8Array`) become `List Nat` of bytes.
- JS numbers used as indices or timestamps become `Int` where the source
  can produce negative values (e.g. `this.currentIndex = this.buffer.length - 1`
  evaluates to `-1` on an empty array), and `Nat` where they count.
- `undefined` / `null` results become `Option`.
-/

/-- `FrameMetadata` from `StreamClient.ts`: the JSON header of a wire frame.
`latency` is filled in client-side after decode. -/
structure FrameMetadata where
  width : Nat
  height : Nat
  compressed : Bool
  timestamp : Int
  frameId : Nat
  latency : Option Int
deriving Repr, DecidableEq

/-- The browser `ImageData` value built in `processFrame`: raw RGBA bytes
plus dimensions. -/
structure ImageData where
  data : List Nat
  width : Nat
  height : Nat
deriving Repr, DecidableEq

/-- `BufferedFrame` from `FrameBuffer.ts`. -/
structure BufferedFrame where
  imageData : ImageData
  metadata : FrameMetadata
  timestamp : Int
deriving Repr, DecidableEq

/-- The state of the `FrameBuffer` class from `FrameBuffer.ts`:
`buffer` (oldest first), `maxSize`, and the read cursor `currentIndex`.
The cursor is an `Int` because the source assigns
`this.buffer.length - 1`, which is `-1` when the buffer is empty. -/
structure FrameBuffer where
  buffer : List BufferedFrame
  maxSize : Nat
  currentIndex : Int
deriving Repr, DecidableEq

/-- The `FrameBuffer` constructor: empty buffer, cursor 0. -/
def FrameBuffer.mkBuffer (maxSize : Nat) : FrameBuffer :=
  { buffer := [], maxSize := maxSize, currentIndex := 0 }

/-- `FrameBuffer.addFrame`: push the frame, evict the oldest entry when
the length exceeds `maxSize`, then set the cursor to the last index. -/
def FrameBuffer.addFrame (fb : FrameBuffer) (frame : BufferedFrame) : FrameBuffer :=
  let b0 := fb.buffer ++ [frame]
  let b := if b0.length > fb.maxSize then b0.tail else b0
  { fb with buffer := b, currentIndex := (b.length : Int) - 1 }

/-- `FrameBuffer.getLatestFrame`: last element, or `none` when empty. -/
def FrameBuffer.getLatestFrame (fb : FrameBuffer) : Option BufferedFrame :=
  if fb.buffer.length = 0 then none
  else fb.buffer[fb.buffer.length - 1]?

/-- `FrameBuffer.getFrame`: bounds-checked random access. -/
def FrameBuffer.getFrame (fb : FrameBuffer) (index : Int) : Option BufferedFrame :=
  if index < 0 ∨ (fb.buffer.length : Int) ≤ index then none
  else fb.buffer[index.toNat]?

/-- `FrameBuffer.getCurrentFrame`. -/
def FrameBuffer.getCurrentFrame (fb : FrameBuffer) : Option BufferedFrame :=
  fb.getFrame fb.currentIndex

/-- `FrameBuffer.nextFrame`: advance the cursor if not at the last index,
then return the current frame. -/
def FrameBuffer.nextFrame (fb : FrameBuffer) : FrameBuffer × Option BufferedFrame :=
  let fb' := if fb.currentIndex < (fb.buffer.length : Int) - 1 then
    { fb with currentIndex := fb.currentIndex + 1 } else fb
  (fb', fb'.getCurrentFrame)

/-- `FrameBuffer.previousFrame`: move the cursor back if positive,
then return the current frame. -/
def FrameBuffer.previousFrame (fb : FrameBuffer) : FrameBuffer × Option BufferedFrame :=
  let fb' := if fb.currentIndex > 0 then
    { fb with currentIndex := fb.currentIndex - 1 } else fb
  (fb', fb'.getCurrentFrame)

/-- `FrameBuffer.seekToLatest`: cursor := max(0, length - 1). -/
def FrameBuffer.seekToLatest (fb : FrameBuffer) : FrameBuffer × Option BufferedFrame :=
  let fb' := { fb with currentIndex := max 0 ((fb.buffer.length : Int) - 1) }
  (fb', fb'.getCurrentFrame)

/-- `FrameBuffer.clear`: empty the buffer and reset the cursor. -/
def FrameBuffer.clear (fb : FrameBuffer) : FrameBuffer :=
  { fb with buffer := [], currentIndex := 0 }

/-- The `while` loop of `FrameBuffer.dropOldFrames`: shift entries off the
head while `now - frame.timestamp > maxAge`, counting the drops. -/
def FrameBuffer.dropLoop (now maxAge : Int) : List BufferedFrame → List BufferedFrame × Nat
  | [] => ([], 0)
  | f :: rest =>
    if now - f.timestamp > maxAge then
      let r := FrameBuffer.dropLoop now maxAge rest
      (r.1, r.2 + 1)
    else (f :: rest, 0)

/-- `FrameBuffer.dropOldFrames`: run the eviction loop, shift the cursor
left by the number of drops (floored at 0 via `Math.max`), and return the
new state together with the drop count. -/
def FrameBuffer.dropOldFrames (now maxAge : Int) (fb : FrameBuffer) : FrameBuffer × Nat :=
  let r := FrameBuffer.dropLoop now maxAge fb.buffer
  ({ fb with buffer := r.1, currentIndex := max 0 (fb.currentIndex - (r.2 : Int)) }, r.2)

lemma FrameBuffer.addFrame_buffer (fb : FrameBuffer) (f : BufferedFrame) :
    (fb.addFrame f).buffer =
      if fb.buffer.length + 1 > fb.maxSize then (fb.buffer ++ [f]).tail
      else fb.buffer ++ [f] := by
  simp [FrameBuffer.addFrame]

lemma FrameBuffer.addFrame_maxSize (fb : FrameBuffer) (f : BufferedFrame) :
    (fb.addFrame f).maxSize = fb.maxSize := by
  simp [FrameBuffer.addFrame]

/-- One step of the FIFO characterisation: if the buffer holds the last
`maxSize` elements of the insertion history `l`, it holds the last
`maxSize` elements of `l ++ [f]` after `addFrame f`. -/
lemma FrameBuffer.addFrame_drop (fb : FrameBuffer) (f : BufferedFrame) (l : List BufferedFrame)
    (hb : fb.buffer = l.drop (l.length - fb.maxSize)) :
    (fb.addFrame f).buffer = (l ++ [f]).drop ((l ++ [f]).length - fb.maxSize) := by
  rw [FrameBuffer.addFrame_buffer, hb]
  have hdl : (l.drop (l.length - fb.maxSize)).length = l.length - (l.length - fb.maxSize) :=
    List.length_drop _ _
  by_cases hNl : l.length < fb.maxSize
  · have h1 : l.length - fb.maxSize = 0 := by omega
    have h2 : (l ++ [f]).length - fb.maxSize = 0 := by
      simp only [List.length_append, List.length_singleton]
      omega
    rw [h1, h2, List.drop_zero, List.drop_zero]
    have hcond : ¬ (l.length + 1 > fb.maxSize) := by omega
    rw [if_neg hcond]
  · push_neg at hNl
    have hcond : (l.drop (l.length - fb.maxSize)).length + 1 > fb.maxSize := by omega
    rw [if_pos hcond]
    by_cases hN0 : fb.maxSize = 0
    · rw [hN0]
      simp [List.drop_length]
    · have hdropapp : (l ++ [f]).drop ((l ++ [f]).length - fb.maxSize)
          = l.drop (l.length + 1 - fb.maxSize) ++ [f] := by
        have hle : l.length + 1 - fb.maxSize ≤ l.length := by omega
        rw [List.length_append, List.length_singleton,
          List.drop_append_of_le_length hle]
      rw [hdropapp]
      have htail : (l.drop (l.length - fb.maxSize) ++ [f]).tail
          = (l.drop (l.length - fb.maxSize)).tail ++ [f] := by
        apply List.tail_append_of_ne_nil
        intro hnil
        have hc : (l.drop (l.length - fb.maxSize)).length = 0 := by
          rw [hnil]
          rfl
        rw [hdl] at hc
        omega
      rw [htail, List.tail_drop]
      have harg : l.length - fb.maxSize + 1 = l.length + 1 - fb.maxSize := by omega
      rw [harg]

/-- Folding `addFrame` over a list of frames keeps exactly the suffix of
the insertion history of length `maxSize`. -/
lemma FrameBuffer.foldl_addFrame_drop (N : Nat) (fs : List BufferedFrame) :
    (fs.foldl FrameBuffer.addFrame (FrameBuffer.mkBuffer N)).buffer
      = fs.drop (fs.length - N)
    ∧ (fs.foldl FrameBuffer.addFrame (FrameBuffer.mkBuffer N)).maxSize = N := by
  induction fs using List.reverseRecOn with
  | nil => simp [FrameBuffer.mkBuffer]
  | append_singleton fs f ih =>
    rw [List.foldl_append, List.foldl_cons, List.foldl_nil]
    refine ⟨?_, by rw [FrameBuffer.addFrame_maxSize]; exact ih.2⟩
    have := FrameBuffer.addFrame_drop (fs.foldl FrameBuffer.addFrame (FrameBuffer.mkBuffer N))
      f fs (by rw [ih.2]; exact ih.1)
    rw [ih.2] at this
    exact this

/-- C1: for every sequence of `addFrame` calls on a `FrameBuffer` of
capacity `N > 0`, the buffer length is at most `N` — in fact exactly
`min (number of calls) N` — and the buffer is exactly the last
`min (number of calls) N` inserted frames in arrival order (the suffix of
the insertion sequence), the oldest having been evicted first.  Because the
statement quantifies over all insertion sequences, it holds after each call
of any longer sequence as well. -/
theorem frameBuffer_addFrame_keeps_last_min (N : Nat) (hN : 0 < N)
    (fs : List BufferedFrame) :
    (fs.foldl FrameBuffer.addFrame (FrameBuffer.mkBuffer N)).buffer
      = fs.drop (fs.length - N)
    ∧ (fs.foldl FrameBuffer.addFrame (FrameBuffer.mkBuffer N)).buffer.length
      = min fs.length N := by
  refine ⟨(FrameBuffer.foldl_addFrame_drop N fs).1, ?_⟩
  rw [(FrameBuffer.foldl_addFrame_drop N fs).1, List.length_drop]
  omega

/-- A concrete frame used by witnesses and counterexamples. -/
def sampleFrame (i : Nat) : BufferedFrame :=
  { imageData := { data := [i % 256, 0, 0, 255], width := 1, height := 1 }
    metadata :=
      { width := 1, height := 1, compressed := false, timestamp := (i : Int)
        frameId := i, latency := none }
    timestamp := (i : Int) }

/-- Witness for C1 at capacity 2 with three insertions: the buffer holds
exactly the last two frames. -/
theorem frameBuffer_addFrame_keeps_last_min_witness :
    ([sampleFrame 1, sampleFrame 2, sampleFrame 3].foldl FrameBuffer.addFrame
        (FrameBuffer.mkBuffer 2)).buffer
      = [sampleFrame 1, sampleFrame 2, sampleFrame 3].drop
          ([sampleFrame 1, sampleFrame 2, sampleFrame 3].length - 2)
    ∧ ([sampleFrame 1, sampleFrame 2, sampleFrame 3].foldl FrameBuffer.addFrame
        (FrameBuffer.mkBuffer 2)).buffer.length
      = min [sampleFrame 1, sampleFrame 2, sampleFrame 3].length 2 :=
  frameBuffer_addFrame_keeps_last_min 2 (by decide)
    [sampleFrame 1, sampleFrame 2, sampleFrame 3]

/-- The eviction loop drops exactly the maximal head segment of frames with
`now - timestamp > maxAge`, and reports its length. -/
lemma FrameBuffer.dropLoop_eq (now maxAge : Int) (l : List BufferedFrame) :
    FrameBuffer.dropLoop now maxAge l
      = (l.drop ((l.takeWhile (fun f => decide (now - f.timestamp > maxAge))).length),
         (l.takeWhile (fun f => decide (now - f.timestamp > maxAge))).length) := by
  induction l with
  | nil => rfl
  | cons f rest ih =>
    by_cases h : now - f.timestamp > maxAge
    · simp [FrameBuffer.dropLoop, h, ih]
    · simp [FrameBuffer.dropLoop, h]

/-- Running the eviction loop a second time on its own output drops
nothing. -/
lemma FrameBuffer.dropLoop_idem (now maxAge : Int) (l : List BufferedFrame) :
    FrameBuffer.dropLoop now maxAge (FrameBuffer.dropLoop now maxAge l).1
      = ((FrameBuffer.dropLoop now maxAge l).1, 0) := by
  induction l with
  | nil => rfl
  | cons f rest ih =>
    by_cases h : now - f.timestamp > maxAge
    · have hstep : FrameBuffer.dropLoop now maxAge (f :: rest)
          = ((FrameBuffer.dropLoop now maxAge rest).1,
             (FrameBuffer.dropLoop now maxAge rest).2 + 1) := by
        simp [FrameBuffer.dropLoop, h]
      rw [hstep]
      exact ih
    · have hstep : FrameBuffer.dropLoop now maxAge (f :: rest) = (f :: rest, 0) := by
        simp [FrameBuffer.dropLoop, h]
      rw [hstep]
      exact hstep

/-- The drop count never exceeds the buffer length. -/
lemma FrameBuffer.dropLoop_le (now maxAge : Int) (l : List BufferedFrame) :
    (FrameBuffer.dropLoop now maxAge l).2 ≤ l.length := by
  induction l with
  | nil => exact Nat.le_refl 0
  | cons f rest ih =>
    by_cases h : now - f.timestamp > maxAge
    · simp only [FrameBuffer.dropLoop, if_pos h, List.length_cons]
      omega
    · simp only [FrameBuffer.dropLoop, if_neg h]
      exact Nat.zero_le _

/-- The post-eviction buffer is the original buffer with the dropped head
segment removed. -/
lemma FrameBuffer.dropLoop_fst (now maxAge : Int) (l : List BufferedFrame) :
    (FrameBuffer.dropLoop now maxAge l).1
      = l.drop (FrameBuffer.dropLoop now maxAge l).2 := by
  rw [FrameBuffer.dropLoop_eq]

/-- C8: `dropOldFrames(maxAge)` is idempotent — with no insertions and no
clock advance, the second call evicts 0 frames — and each call evicts from
the head exactly the maximal segment of frames older than `maxAge`
(characterised via `takeWhile`), returns that count, and shifts the read
cursor left by the count, floored at 0. -/
theorem frameBuffer_dropOldFrames_idempotent (now maxAge : Int) (fb : FrameBuffer) :
    (FrameBuffer.dropOldFrames now maxAge
        (FrameBuffer.dropOldFrames now maxAge fb).1).2 = 0
    ∧ (FrameBuffer.dropOldFrames now maxAge fb).1.buffer
        = fb.buffer.drop (FrameBuffer.dropOldFrames now maxAge fb).2
    ∧ (FrameBuffer.dropOldFrames now maxAge fb).2
        = (fb.buffer.takeWhile (fun f => decide (now - f.timestamp > maxAge))).length
    ∧ (FrameBuffer.dropOldFrames now maxAge fb).1.currentIndex
        = max 0 (fb.currentIndex - ((FrameBuffer.dropOldFrames now maxAge fb).2 : Int)) := by
  refine ⟨?_, ?_, ?_, ?_⟩
  · simp only [FrameBuffer.dropOldFrames]
    rw [FrameBuffer.dropLoop_idem]
  · simp only [FrameBuffer.dropOldFrames]
    exact FrameBuffer.dropLoop_fst now maxAge fb.buffer
  · simp only [FrameBuffer.dropOldFrames]
    rw [FrameBuffer.dropLoop_eq]
  · simp only [FrameBuffer.dropOldFrames]

/-- The read-cursor invariant from the spec: a populated buffer has
`0 ≤ cursor < length`; an empty buffer has the sentinel cursor 0. -/
def FrameBuffer.cursorInv (fb : FrameBuffer) : Prop :=
  (0 < fb.buffer.length →
    0 ≤ fb.currentIndex ∧ fb.currentIndex < (fb.buffer.length : Int))
  ∧ (fb.buffer.length = 0 → fb.currentIndex = 0)

instance (fb : FrameBuffer) : Decidable fb.cursorInv := by
  unfold FrameBuffer.cursorInv
  infer_instance

/-- C9 counterexample: on a `FrameBuffer` of capacity 0 (which satisfies
the cursor invariant when fresh), a single `addFrame` leaves the buffer
empty with `currentIndex = -1` — the assignment
`this.currentIndex = this.buffer.length - 1` in the source produces `-1`
after the pushed frame is immediately evicted — so the cursor invariant is
not preserved by every operation. -/
theorem frameBuffer_cursor_invariant_counterexample :
    FrameBuffer.cursorInv (FrameBuffer.mkBuffer 0)
    ∧ ((FrameBuffer.mkBuffer 0).addFrame (sampleFrame 1)).buffer = []
    ∧ ((FrameBuffer.mkBuffer 0).addFrame (sampleFrame 1)).currentIndex = -1
    ∧ ¬ FrameBuffer.cursorInv ((FrameBuffer.mkBuffer 0).addFrame (sampleFrame 1)) := by
  decide

lemma FrameBuffer.nextFrame_fields (fb : FrameBuffer) :
    fb.nextFrame.1.buffer = fb.buffer
    ∧ fb.nextFrame.1.currentIndex
        = (if fb.currentIndex < (fb.buffer.length : Int) - 1 then fb.currentIndex + 1
           else fb.currentIndex) := by
  unfold FrameBuffer.nextFrame
  by_cases h : fb.currentIndex < (fb.buffer.length : Int) - 1 <;> simp [h]

lemma FrameBuffer.previousFrame_fields (fb : FrameBuffer) :
    fb.previousFrame.1.buffer = fb.buffer
    ∧ fb.previousFrame.1.currentIndex
        = (if fb.currentIndex > 0 then fb.currentIndex - 1 else fb.currentIndex) := by
  unfold FrameBuffer.previousFrame
  by_cases h : fb.currentIndex > 0 <;> simp [h]

lemma FrameBuffer.cursorInv_addFrame (fb : FrameBuffer) (f : BufferedFrame)
    (hN : 1 ≤ fb.maxSize) : (fb.addFrame f).cursorInv := by
  have hbuf := FrameBuffer.addFrame_buffer fb f
  have hcur : (fb.addFrame f).currentIndex = ((fb.addFrame f).buffer.length : Int) - 1 := by
    unfold FrameBuffer.addFrame
    simp
  have hlen : (fb.addFrame f).buffer.length
      = if fb.buffer.length + 1 > fb.maxSize then fb.buffer.length else fb.buffer.length + 1 := by
    rw [hbuf]
    by_cases h : fb.buffer.length + 1 > fb.maxSize
    · rw [if_pos h, if_pos h, List.length_tail]
      simp
    · rw [if_neg h, if_neg h]
      simp
  have hpos : 1 ≤ (fb.addFrame f).buffer.length := by
    rw [hlen]
    by_cases h : fb.buffer.length + 1 > fb.maxSize
    · rw [if_pos h]
      omega
    · rw [if_neg h]
      omega
  refine ⟨fun _ => ?_, fun hz => ?_⟩
  · rw [hcur]
    omega
  · omega

lemma FrameBuffer.cursorInv_nextFrame (fb : FrameBuffer) (hinv : fb.cursorInv) :
    fb.nextFrame.1.cursorInv := by
  obtain ⟨h1, h2⟩ := hinv
  obtain ⟨hb, hc⟩ := FrameBuffer.nextFrame_fields fb
  refine ⟨fun hpos => ?_, fun hz => ?_⟩
  · rw [hb] at hpos
    obtain ⟨ha, hb'⟩ := h1 hpos
    rw [hb, hc]
    by_cases h : fb.currentIndex < (fb.buffer.length : Int) - 1
    · rw [if_pos h]
      omega
    · rw [if_neg h]
      omega
  · rw [hb] at hz
    have := h2 hz
    rw [hc]
    by_cases h : fb.currentIndex < (fb.buffer.length : Int) - 1
    · rw [if_pos h]
      omega
    · rw [if_neg h]
      omega

lemma FrameBuffer.cursorInv_previousFrame (fb : FrameBuffer) (hinv : fb.cursorInv) :
    fb.previousFrame.1.cursorInv := by
  obtain ⟨h1, h2⟩ := hinv
  obtain ⟨hb, hc⟩ := FrameBuffer.previousFrame_fields fb
  refine ⟨fun hpos => ?_, fun hz => ?_⟩
  · rw [hb] at hpos
    obtain ⟨ha, hb'⟩ := h1 hpos
    rw [hb, hc]
    by_cases h : fb.currentIndex > 0
    · rw [if_pos h]
      omega
    · rw [if_neg h]
      omega
  · rw [hb] at hz
    have := h2 hz
    rw [hc]
    by_cases h : fb.currentIndex > 0
    · rw [if_pos h]
      omega
    · rw [if_neg h]
      omega

lemma FrameBuffer.seekToLatest_fields (fb : FrameBuffer) :
    fb.seekToLatest.1.buffer = fb.buffer
    ∧ fb.seekToLatest.1.currentIndex = max 0 ((fb.buffer.length : Int) - 1) := by
  unfold FrameBuffer.seekToLatest
  exact ⟨rfl, rfl⟩

lemma FrameBuffer.cursorInv_seekToLatest (fb : FrameBuffer) :
    fb.seekToLatest.1.cursorInv := by
  obtain ⟨hb, hc⟩ := FrameBuffer.seekToLatest_fields fb
  refine ⟨fun hpos => ?_, fun hz => ?_⟩
  · rw [hb] at hpos
    rw [hb, hc]
    omega
  · rw [hb] at hz
    rw [hc]
    omega

lemma FrameBuffer.cursorInv_clear (fb : FrameBuffer) : fb.clear.cursorInv := by
  unfold FrameBuffer.clear FrameBuffer.cursorInv
  simp

lemma FrameBuffer.cursorInv_dropOldFrames (now maxAge : Int) (fb : FrameBuffer)
    (hinv : fb.cursorInv) : (FrameBuffer.dropOldFrames now maxAge fb).1.cursorInv := by
  obtain ⟨h1, h2⟩ := hinv
  have hfst : (FrameBuffer.dropOldFrames now maxAge fb).1.buffer
      = fb.buffer.drop (FrameBuffer.dropLoop now maxAge fb.buffer).2 := by
    simp only [FrameBuffer.dropOldFrames]
    exact FrameBuffer.dropLoop_fst now maxAge fb.buffer
  have hcur : (FrameBuffer.dropOldFrames now maxAge fb).1.currentIndex
      = max 0 (fb.currentIndex - ((FrameBuffer.dropLoop now maxAge fb.buffer).2 : Int)) := by
    simp only [FrameBuffer.dropOldFrames]
  have hk := FrameBuffer.dropLoop_le now maxAge fb.buffer
  have hlen : (FrameBuffer.dropOldFrames now maxAge fb).1.buffer.length
      = fb.buffer.length - (FrameBuffer.dropLoop now maxAge fb.buffer).2 := by
    rw [hfst, List.length_drop]
  refine ⟨fun hpos => ?_, fun hz => ?_⟩
  · rw [hlen] at hpos
    have hblen : 0 < fb.buffer.length := by omega
    obtain ⟨ha, hb'⟩ := h1 hblen
    rw [hcur, hlen]
    omega
  · rw [hlen] at hz
    rw [hcur]
    by_cases hb0 : fb.buffer.length = 0
    · have := h2 hb0
      omega
    · have hblen : 0 < fb.buffer.length := by omega
      obtain ⟨ha, hb'⟩ := h1 hblen
      omega

/-- C9, amended to capacity at least 1: on a `FrameBuffer` whose `maxSize`
is at least 1, every operation (`addFrame`, `nextFrame`, `previousFrame`,
`seekToLatest`, `dropOldFrames`, `clear`) preserves the cursor invariant
`0 ≤ cursor < length` for a non-empty buffer and `cursor = 0` for an empty
one.  (At capacity 0 the invariant is broken by `addFrame`; see the
counterexample.) -/
theorem frameBuffer_cursor_invariant_preserved (fb : FrameBuffer) (f : BufferedFrame)
    (now maxAge : Int) (hN : 1 ≤ fb.maxSize) (hinv : fb.cursorInv) :
    (fb.addFrame f).cursorInv
    ∧ fb.nextFrame.1.cursorInv
    ∧ fb.previousFrame.1.cursorInv
    ∧ fb.seekToLatest.1.cursorInv
    ∧ (FrameBuffer.dropOldFrames now maxAge fb).1.cursorInv
    ∧ fb.clear.cursorInv :=
  ⟨FrameBuffer.cursorInv_addFrame fb f hN,
   FrameBuffer.cursorInv_nextFrame fb hinv,
   FrameBuffer.cursorInv_previousFrame fb hinv,
   FrameBuffer.cursorInv_seekToLatest fb,
   FrameBuffer.cursorInv_dropOldFrames now maxAge fb hinv,
   FrameBuffer.cursorInv_clear fb⟩

/-- Witness for the amended C9 at a concrete one-slot buffer. -/
theorem frameBuffer_cursor_invariant_preserved_witness :
    1 ≤ (FrameBuffer.mkBuffer 1).maxSize
    ∧ (FrameBuffer.mkBuffer 1).cursorInv
    ∧ (((FrameBuffer.mkBuffer 1).addFrame (sampleFrame 1)).cursorInv
       ∧ (FrameBuffer.mkBuffer 1).nextFrame.1.cursorInv
       ∧ (FrameBuffer.mkBuffer 1).previousFrame.1.cursorInv
       ∧ (FrameBuffer.mkBuffer 1).seekToLatest.1.cursorInv
       ∧ (FrameBuffer.dropOldFrames 5 0 (FrameBuffer.mkBuffer 1)).1.cursorInv
       ∧ (FrameBuffer.mkBuffer 1).clear.cursorInv) :=
  ⟨by decide, by decide,
   frameBuffer_cursor_invariant_preserved (FrameBuffer.mkBuffer 1) (sampleFrame 1) 5 0
     (by decide) (by decide)⟩

/-- `view.getUint32(0, true)` of `parseFrameMessage`: the little-endian
32-bit word formed by the first four bytes. -/
def readUint32LE (data : List Nat) : Nat :=
  data.getD 0 0 + data.getD 1 0 * 256 + data.getD 2 0 * 65536 + data.getD 3 0 * 16777216

/-- `StreamClient.parseFrameMessage`, parameterised by the JSON header
parser (`JSON.parse` + `TextDecoder`), which is opaque to the length
checks: messages shorter than 4 bytes, or shorter than
`4 + headerLength`, return `null` (here `none`) before the header is ever
parsed; a parser failure also returns `null`; otherwise the header gets
`latency := now - timestamp` and the payload is the remainder. -/
def parseFrameMessage (parseHeader : List Nat → Option FrameMetadata) (now : Int)
    (data : List Nat) : Option (FrameMetadata × List Nat) :=
  if data.length < 4 then none
  else if data.length < 4 + readUint32LE data then none
  else
    match parseHeader ((data.drop 4).take (readUint32LE data)) with
    | some header =>
      some ({ header with latency := some (now - header.timestamp) },
            data.drop (4 + readUint32LE data))
    | none => none

/-- The frame-pipeline state of `StreamClient`: the `FrameBuffer`, the two
stats counters touched by `processFrame`, the emitted `frame` events, and a
count of invocations of the `Decompressor` capability.  No statement of
`processFrame` in the source invokes the decompressor (its body begins
with the comment "For now, assume data is uncompressed RGBA"), so no
operation below ever changes `decompressCalls`. -/
structure ProcState where
  frameBuffer : FrameBuffer
  totalFrames : Nat
  droppedFrames : Nat
  decompressCalls : Nat
  emittedFrames : List (ImageData × FrameMetadata)
deriving Repr, DecidableEq

/-- `StreamClient.processFrame`: bump `totalFrames`, reject the payload
when its length differs from `width * height * 4`, construct the
`ImageData`, insert into the buffer, and emit the latest frame.  The only
statement in the source's `try` block that can throw is the `ImageData`
constructor, which (given that the byte length already matches
`width * height * 4`) throws exactly when a dimension is zero; the `catch`
block increments `droppedFrames`. -/
def processFrame (now : Int) (st : ProcState) (metadata : FrameMetadata)
    (payload : List Nat) : ProcState :=
  let st1 := { st with totalFrames := st.totalFrames + 1 }
  if payload.length ≠ metadata.width * metadata.height * 4 then st1
  else if metadata.width = 0 ∨ metadata.height = 0 then
    { st1 with droppedFrames := st1.droppedFrames + 1 }
  else
    let fb := st1.frameBuffer.addFrame
      { imageData := { data := payload, width := metadata.width, height := metadata.height }
        metadata := metadata, timestamp := now }
    let st2 := { st1 with frameBuffer := fb }
    match fb.getLatestFrame with
    | some latest =>
      { st2 with emittedFrames := st2.emittedFrames ++ [(latest.imageData, latest.metadata)] }
    | none => st2

/-- `StreamClient.handleMessage`: decode, and process the frame only on a
successful decode; a `null` decode drops the message and leaves the state
untouched. -/
def handleMessage (parseHeader : List Nat → Option FrameMetadata) (now : Int)
    (st : ProcState) (data : List Nat) : ProcState :=
  match parseFrameMessage parseHeader now data with
  | none => st
  | some hp => processFrame now st hp.1 hp.2

/-- The pipeline state right after the `StreamClient` constructor: a
fresh buffer of the default `bufferSize` 3 and zeroed counters. -/
def initialProcState : ProcState :=
  { frameBuffer := FrameBuffer.mkBuffer 3, totalFrames := 0, droppedFrames := 0
    decompressCalls := 0, emittedFrames := [] }

/-- A concrete 1x1 uncompressed header. -/
def plainMeta : FrameMetadata :=
  { width := 1, height := 1, compressed := false, timestamp := 0, frameId := 7
    latency := none }

/-- A concrete 1x1 header with the `compressed` flag set. -/
def compressedMeta : FrameMetadata :=
  { width := 1, height := 1, compressed := true, timestamp := 0, frameId := 8
    latency := none }

/-- C6: every binary message shorter than 4 bytes, or shorter than
`4 + headerLength` bytes (with `headerLength` the little-endian uint32 of
the first four bytes), makes `parseFrameMessage` return the error outcome
`none` — for every header parser, so the failure is decided by the length
checks alone, before any JSON parsing — and `handleMessage` drops the
message leaving the client state unchanged, so decoding continues on the
next message. -/
theorem parseFrameMessage_tooShort (parseHeader : List Nat → Option FrameMetadata)
    (now : Int) (data : List Nat)
    (h : data.length < 4 ∨ data.length < 4 + readUint32LE data) :
    parseFrameMessage parseHeader now data = none
    ∧ ∀ st : ProcState, handleMessage parseHeader now st data = st := by
  have hnone : parseFrameMessage parseHeader now data = none := by
    unfold parseFrameMessage
    by_cases h4 : data.length < 4
    · rw [if_pos h4]
    · rw [if_neg h4]
      have h5 : data.length < 4 + readUint32LE data := by
        rcases h with h | h
        · omega
        · exact h
      rw [if_pos h5]
  refine ⟨hnone, fun st => ?_⟩
  unfold handleMessage
  rw [hnone]

/-- Witness for C6 on the 2-byte message `[7, 0]`. -/
theorem parseFrameMessage_tooShort_witness :
    (([7, 0] : List Nat).length < 4
      ∨ ([7, 0] : List Nat).length < 4 + readUint32LE [7, 0])
    ∧ parseFrameMessage (fun _ => none) 0 [7, 0] = none
    ∧ ∀ st : ProcState, handleMessage (fun _ => none) 0 st [7, 0] = st :=
  ⟨Or.inl (by decide),
   (parseFrameMessage_tooShort (fun _ => none) 0 [7, 0] (Or.inl (by decide))).1,
   (parseFrameMessage_tooShort (fun _ => none) 0 [7, 0] (Or.inl (by decide))).2⟩

/-- C7: a decoded frame whose payload length differs from
`width * height * 4` is rejected: the `FrameBuffer` is unchanged, no
`frame` event is published, and `droppedFrames` is not touched either
(only `totalFrames` is bumped). -/
theorem processFrame_size_mismatch_rejected (now : Int) (st : ProcState)
    (m : FrameMetadata) (payload : List Nat)
    (h : payload.length ≠ m.width * m.height * 4) :
    (processFrame now st m payload).frameBuffer = st.frameBuffer
    ∧ (processFrame now st m payload).emittedFrames = st.emittedFrames
    ∧ (processFrame now st m payload).droppedFrames = st.droppedFrames
    ∧ (processFrame now st m payload).totalFrames = st.totalFrames + 1 := by
  unfold processFrame
  rw [if_pos h]
  exact ⟨rfl, rfl, rfl, rfl⟩

/-- Witness for C7: a 1x1 frame with a 3-byte payload is rejected. -/
theorem processFrame_size_mismatch_rejected_witness :
    (([0, 0, 0] : List Nat).length ≠ 1 * 1 * 4)
    ∧ (processFrame 0 initialProcState plainMeta [0, 0, 0]).frameBuffer
        = initialProcState.frameBuffer
    ∧ (processFrame 0 initialProcState plainMeta [0, 0, 0]).emittedFrames
        = initialProcState.emittedFrames
    ∧ (processFrame 0 initialProcState plainMeta [0, 0, 0]).droppedFrames
        = initialProcState.droppedFrames
    ∧ (processFrame 0 initialProcState plainMeta [0, 0, 0]).totalFrames
        = initialProcState.totalFrames + 1 :=
  ⟨by decide, processFrame_size_mismatch_rejected 0 initialProcState plainMeta [0, 0, 0]
    (by decide)⟩

/-- C4 counterexample: a frame whose metadata has `compressed := true` is
processed with zero invocations of the decompression capability — the
payload is inserted into the buffer verbatim and `droppedFrames` stays 0 —
so the client does not resolve compressed payloads through the external
decompression capability before inserting. -/
theorem processFrame_compressed_counterexample :
    compressedMeta.compressed = true
    ∧ (processFrame 0 initialProcState compressedMeta [1, 2, 3, 255]).decompressCalls = 0
    ∧ (processFrame 0 initialProcState compressedMeta [1, 2, 3, 255]).frameBuffer.buffer
        = [{ imageData := { data := [1, 2, 3, 255], width := 1, height := 1 }
             metadata := compressedMeta, timestamp := 0 }]
    ∧ (processFrame 0 initialProcState compressedMeta [1, 2, 3, 255]).droppedFrames = 0 := by
  decide

/-- C4, amended: `processFrame` never invokes the decompression
capability, whatever the `compressed` flag says; a frame whose payload
length equals `width * height * 4` (with nonzero dimensions) is inserted
into the buffer as raw RGBA exactly as received, and `droppedFrames` is
not incremented for it.  (`droppedFrames` moves only when the `try` block
throws, i.e. when the `ImageData` constructor rejects a zero dimension.) -/
theorem processFrame_never_decompresses (now : Int) (st : ProcState) (m : FrameMetadata)
    (payload : List Nat) :
    (processFrame now st m payload).decompressCalls = st.decompressCalls
    ∧ (payload.length = m.width * m.height * 4 → 0 < m.width → 0 < m.height →
        (processFrame now st m payload).frameBuffer
          = st.frameBuffer.addFrame
              { imageData := { data := payload, width := m.width, height := m.height }
                metadata := m, timestamp := now }
        ∧ (processFrame now st m payload).droppedFrames = st.droppedFrames) := by
  constructor
  · simp only [processFrame]
    by_cases h1 : payload.length ≠ m.width * m.height * 4
    · rw [if_pos h1]
    · rw [if_neg h1]
      by_cases h2 : m.width = 0 ∨ m.height = 0
      · rw [if_pos h2]
      · rw [if_neg h2]
        split <;> rfl
  · intro hlen hw hh
    have h1 : ¬ (payload.length ≠ m.width * m.height * 4) := fun hcontra => hcontra hlen
    have h2 : ¬ (m.width = 0 ∨ m.height = 0) := by omega
    simp only [processFrame]
    rw [if_neg h1, if_neg h2]
    split <;> exact ⟨rfl, rfl⟩

/-- Witness for the amended C4 at a concrete compressed 1x1 frame. -/
theorem processFrame_never_decompresses_witness :
    (processFrame 0 initialProcState compressedMeta [9, 9, 9, 9]).decompressCalls
      = initialProcState.decompressCalls
    ∧ (processFrame 0 initialProcState compressedMeta [9, 9, 9, 9]).frameBuffer
        = initialProcState.frameBuffer.addFrame
            { imageData := { data := [9, 9, 9, 9], width := compressedMeta.width
                             height := compressedMeta.height }
              metadata := compressedMeta, timestamp := 0 }
    ∧ (processFrame 0 initialProcState compressedMeta [9, 9, 9, 9]).droppedFrames
        = initialProcState.droppedFrames :=
  have h := processFrame_never_decompresses 0 initialProcState compressedMeta [9, 9, 9, 9]
  ⟨h.1, (h.2 (by decide) (by decide) (by decide)).1,
    (h.2 (by decide) (by decide) (by decide)).2⟩

/-- `QualityConfig` from `Config.ts`. -/
structure QualityConfig where
  maxWidth : Nat
  maxHeight : Nat
  targetFPS : Nat
  compressionLevel : Nat
deriving Repr, DecidableEq

/-- `QualitySettings` from `Config.ts`: the three named profiles. -/
structure QualitySettings where
  high : QualityConfig
  medium : QualityConfig
  low : QualityConfig
deriving Repr, DecidableEq

/-- `StreamConfig` from `Config.ts` (the fields the stream client reads). -/
structure StreamConfig where
  reconnectAttempts : Nat
  reconnectDelay : Nat
  heartbeatInterval : Nat
  bufferSize : Nat
  qualitySettings : QualitySettings
deriving Repr, DecidableEq

/-- `Config.getDefaultConfig` from `Config.ts`. -/
def defaultConfig : StreamConfig :=
  { reconnectAttempts := 5, reconnectDelay := 2000, heartbeatInterval := 30000
    bufferSize := 3
    qualitySettings :=
      { high := { maxWidth := 1920, maxHeight := 1080, targetFPS := 30, compressionLevel := 1 }
        medium := { maxWidth := 1280, maxHeight := 720, targetFPS := 24, compressionLevel := 3 }
        low := { maxWidth := 854, maxHeight := 480, targetFPS := 15, compressionLevel := 6 } } }

/-- `Config.getQuality`: the runtime JS property lookup
`this.config.qualitySettings[quality]`.  The settings object has exactly
the keys `high`, `medium`, `low`; any other key yields `undefined`
(modelled `none`) — no error is thrown. -/
def StreamConfig.getQuality (cfg : StreamConfig) (quality : String) : Option QualityConfig :=
  if quality = "high" then some cfg.qualitySettings.high
  else if quality = "medium" then some cfg.qualitySettings.medium
  else if quality = "low" then some cfg.qualitySettings.low
  else none

/-- The two outbound control-message shapes sent by `StreamClient`:
`{type:"ping"}` and `{type:"quality", config}` (whose `config` is
`undefined` when the lookup missed). -/
inductive ControlMessage where
  | ping : ControlMessage
  | quality : Option QualityConfig → ControlMessage
deriving Repr, DecidableEq

/-- The connection-lifecycle state of `StreamClient`: the flags and timer
handles of the class, the socket (`wsPresent` = `this.ws !== undefined`,
`wsOpen` = `readyState === OPEN`), the retained quality name, plus the
observable traces of sent control messages and emitted events. -/
structure ClientState where
  isConnected : Bool
  reconnectAttempts : Nat
  reconnectTimer : Option Nat
  heartbeatTimer : Bool
  statsTimer : Bool
  wsPresent : Bool
  wsOpen : Bool
  currentQuality : String
  sentMessages : List ControlMessage
  emittedEvents : List String
deriving Repr, DecidableEq

/-- `StreamClient.scheduleReconnect`: increment the attempt counter first,
then arm the reconnect timer with delay
`reconnectDelay * 2 ^ (reconnectAttempts - 1)` for the new counter
value. -/
def scheduleReconnect (cfg : StreamConfig) (st : ClientState) : ClientState :=
  let attempts := st.reconnectAttempts + 1
  { st with reconnectAttempts := attempts
            reconnectTimer := some (cfg.reconnectDelay * 2 ^ (attempts - 1)) }

/-- `StreamClient.stopHeartbeat`. -/
def stopHeartbeat (st : ClientState) : ClientState :=
  { st with heartbeatTimer := false }

/-- `StreamClient.handleDisconnection` (the `onclose` path): clear the
connected flag, stop the heartbeat, emit `disconnected`, and schedule a
reconnect only while the attempt counter is below the configured
maximum.  Nothing in this method consults the socket or any
user-initiated-disconnect flag. -/
def handleDisconnection (cfg : StreamConfig) (st : ClientState) : ClientState :=
  let st1 := stopHeartbeat { st with isConnected := false }
  let st2 := { st1 with emittedEvents := st1.emittedEvents ++ ["disconnected"] }
  if st2.reconnectAttempts < cfg.reconnectAttempts then scheduleReconnect cfg st2 else st2

/-- `StreamClient.handleConnectionError` (the `onerror` path). -/
def handleConnectionError (cfg : StreamConfig) (st : ClientState) : ClientState :=
  let st1 := { st with isConnected := false
                       emittedEvents := st.emittedEvents ++ ["error"] }
  if st1.reconnectAttempts < cfg.reconnectAttempts then scheduleReconnect cfg st1 else st1

/-- `StreamClient.disconnect`: clear the connected flag, cancel the
reconnect timer, stop the heartbeat, clear the stats timer, call
`ws.close(1000, ...)` and drop the `ws` reference, then emit
`disconnected`.  The handlers installed by `setupWebSocketHandlers` remain
attached to the (now closing) socket object — the source neither detaches
them nor records that the disconnect was user-initiated — so the
platform's later delivery of that socket's close event still runs
`handleDisconnection`. -/
def disconnect (st : ClientState) : ClientState :=
  let st1 := { st with isConnected := false }
  let st2 := { st1 with reconnectTimer := none }
  let st3 := stopHeartbeat st2
  let st4 := { st3 with statsTimer := false }
  let st5 := if st4.wsPresent then { st4 with wsOpen := false, wsPresent := false } else st4
  { st5 with emittedEvents := st5.emittedEvents ++ ["disconnected"] }

/-- The `ws.onopen` handler from `setupWebSocketHandlers`: set the
connected flag, reset the attempt counter, start the heartbeat, and emit
`connected`.  It sends no control message — in particular it does not
replay `currentQuality`. -/
def onOpen (st : ClientState) : ClientState :=
  { st with isConnected := true, reconnectAttempts := 0, heartbeatTimer := true
            emittedEvents := st.emittedEvents ++ ["connected"] }

/-- `StreamClient.setQuality`: record the requested name unconditionally,
then send a `quality` control message only when the socket is open. -/
def setQuality (cfg : StreamConfig) (st : ClientState) (quality : String) : ClientState :=
  let st1 := { st with currentQuality := quality }
  if st1.wsOpen then
    { st1 with sentMessages :=
        st1.sentMessages ++ [ControlMessage.quality (cfg.getQuality quality)] }
  else st1

/-- A freshly connected client: `onopen` has fired (counter 0, heartbeat
running), nothing sent or pending. -/
def connectedState : ClientState :=
  { isConnected := true, reconnectAttempts := 0, reconnectTimer := none
    heartbeatTimer := true, statsTimer := true, wsPresent := true, wsOpen := true
    currentQuality := "medium", sentMessages := [], emittedEvents := [] }

/-- C2 evaluated on the code: from a connected client (attempt counter 0,
maximum 5), `disconnect()` does cancel the pending timers, but the close
event that its own `ws.close(1000)` triggers is afterwards delivered to
the still-attached `onclose` handler, and `handleDisconnection` — which
consults only the attempt counter — schedules a reconnect with delay
`2000 * 2 ^ 0 = 2000`; an error callback delivered instead behaves the
same.  So an explicit `disconnect()` does not prevent a subsequently
delivered close/error callback from scheduling a reconnect. -/
theorem disconnect_then_close_schedules_reconnect :
    (disconnect connectedState).reconnectTimer = none
    ∧ (disconnect connectedState).heartbeatTimer = false
    ∧ (handleDisconnection defaultConfig (disconnect connectedState)).reconnectTimer
        = some 2000
    ∧ (handleDisconnection defaultConfig (disconnect connectedState)).reconnectAttempts = 1
    ∧ (handleConnectionError defaultConfig (disconnect connectedState)).reconnectTimer
        = some 2000 := by
  decide

/-- C5: the backoff delay armed for reconnect attempt `i` (i.e. when the
counter was `i - 1` before the schedule) is `reconnectDelay * 2 ^ (i - 1)`
— so attempts 1, 2, 3, ... get delays base, base*2, base*4, ... — and once
the counter has reached the configured maximum number of attempts, neither
a disconnection nor an error schedules any further reconnect: the timer
and the counter are left untouched. -/
theorem reconnect_backoff_and_cap (cfg : StreamConfig) (st st' : ClientState) (i : Nat)
    (h1 : 1 ≤ i) (h2 : st.reconnectAttempts = i - 1)
    (h3 : cfg.reconnectAttempts ≤ st'.reconnectAttempts) :
    (scheduleReconnect cfg st).reconnectTimer
      = some (cfg.reconnectDelay * 2 ^ (i - 1))
    ∧ (scheduleReconnect cfg st).reconnectAttempts = i
    ∧ (handleDisconnection cfg st').reconnectTimer = st'.reconnectTimer
    ∧ (handleDisconnection cfg st').reconnectAttempts = st'.reconnectAttempts
    ∧ (handleConnectionError cfg st').reconnectTimer = st'.reconnectTimer
    ∧ (handleConnectionError cfg st').reconnectAttempts = st'.reconnectAttempts := by
  have hin : ¬ (st'.reconnectAttempts < cfg.reconnectAttempts) := by omega
  refine ⟨?_, ?_, ?_, ?_, ?_, ?_⟩
  · simp only [scheduleReconnect, h2, Nat.add_sub_cancel]
  · simp only [scheduleReconnect]
    omega
  · simp [handleDisconnection, stopHeartbeat, hin]
  · simp [handleDisconnection, stopHeartbeat, hin]
  · simp [handleConnectionError, hin]
  · simp [handleConnectionError, hin]

/-- A client mid-recovery with two attempts already scheduled. -/
def attemptTwoState : ClientState :=
  { connectedState with isConnected := false, wsOpen := false, reconnectAttempts := 2 }

/-- A client whose attempt counter has reached the default maximum 5. -/
def exhaustedState : ClientState :=
  { connectedState with isConnected := false, wsOpen := false, reconnectAttempts := 5 }

/-- Witness for C5: attempt 3 is armed with delay 2000 * 4, and an
exhausted client schedules nothing more. -/
theorem reconnect_backoff_and_cap_witness :
    (1 ≤ 3 ∧ attemptTwoState.reconnectAttempts = 3 - 1
      ∧ defaultConfig.reconnectAttempts ≤ exhaustedState.reconnectAttempts)
    ∧ (scheduleReconnect defaultConfig attemptTwoState).reconnectTimer
        = some (defaultConfig.reconnectDelay * 2 ^ (3 - 1))
    ∧ (scheduleReconnect defaultConfig attemptTwoState).reconnectAttempts = 3
    ∧ (handleDisconnection defaultConfig exhaustedState).reconnectTimer
        = exhaustedState.reconnectTimer
    ∧ (handleDisconnection defaultConfig exhaustedState).reconnectAttempts
        = exhaustedState.reconnectAttempts
    ∧ (handleConnectionError defaultConfig exhaustedState).reconnectTimer
        = exhaustedState.reconnectTimer
    ∧ (handleConnectionError defaultConfig exhaustedState).reconnectAttempts
        = exhaustedState.reconnectAttempts :=
  ⟨⟨by decide, by decide, by decide⟩,
   reconnect_backoff_and_cap defaultConfig attemptTwoState exhaustedState 3
     (by decide) (by decide) (by decide)⟩

/-- C3 counterexample: `setQuality("ultra")` on a connected client raises
nothing (the call completes, returning a successor state), records
`"ultra"` as the current quality — so the active profile selection is
mutated — and, because the lookup misses every key of the settings object,
even sends a quality control message with an `undefined` config.  No
`ConfigError` exists anywhere in the sources. -/
theorem setQuality_unknown_counterexample :
    connectedState.currentQuality = "medium"
    ∧ (setQuality defaultConfig connectedState "ultra").currentQuality = "ultra"
    ∧ defaultConfig.getQuality "ultra" = none
    ∧ (setQuality defaultConfig connectedState "ultra").sentMessages
        = [ControlMessage.quality none] := by
  decide

/-- C3, amended: `setQuality` with a name outside {high, medium, low} does
not raise and does not leave the active selection unchanged — it
unconditionally records the unknown name as `currentQuality`; the profile
lookup yields no profile (`undefined`), a quality message carrying that
missing config is sent when the socket is open, and nothing is sent when
it is closed. -/
theorem setQuality_unknown_no_error (cfg : StreamConfig) (st : ClientState) (q : String)
    (h : q ≠ "high" ∧ q ≠ "medium" ∧ q ≠ "low") :
    (setQuality cfg st q).currentQuality = q
    ∧ cfg.getQuality q = none
    ∧ (st.wsOpen = false → (setQuality cfg st q).sentMessages = st.sentMessages)
    ∧ (st.wsOpen = true → (setQuality cfg st q).sentMessages
        = st.sentMessages ++ [ControlMessage.quality none]) := by
  obtain ⟨h1, h2, h3⟩ := h
  have hq : cfg.getQuality q = none := by
    unfold StreamConfig.getQuality
    rw [if_neg h1, if_neg h2, if_neg h3]
  refine ⟨?_, hq, fun hw => ?_, fun hw => ?_⟩
  · simp only [setQuality]
    split <;> rfl
  · simp [setQuality, hw]
  · simp [setQuality, hw, hq]

/-- Witness for the amended C3 at the connected client and name `ultra`. -/
theorem setQuality_unknown_no_error_witness :
    ("ultra" ≠ "high" ∧ "ultra" ≠ "medium" ∧ "ultra" ≠ "low")
    ∧ (setQuality defaultConfig connectedState "ultra").currentQuality = "ultra"
    ∧ defaultConfig.getQuality "ultra" = none
    ∧ (setQuality defaultConfig connectedState "ultra").sentMessages
        = connectedState.sentMessages ++ [ControlMessage.quality none] :=
  have h := setQuality_unknown_no_error defaultConfig connectedState "ultra"
    ⟨by decide, by decide, by decide⟩
  ⟨⟨by decide, by decide, by decide⟩, h.1, h.2.1, h.2.2.2 (by decide)⟩

/-- C10: `setQuality` unconditionally records the requested level as
`currentQuality` whatever the connection state; a quality control message
goes out exactly when the socket is open; when it is not open the call
sends nothing and raises nothing; and the `onopen` handler of a later
reconnect sends no message at all, so the retained level is never replayed
as a control message. -/
theorem setQuality_records_not_replayed (cfg : StreamConfig) (st : ClientState)
    (q : String) :
    (setQuality cfg st q).currentQuality = q
    ∧ (st.wsOpen = true → (setQuality cfg st q).sentMessages
        = st.sentMessages ++ [ControlMessage.quality (cfg.getQuality q)])
    ∧ (st.wsOpen = false → (setQuality cfg st q).sentMessages = st.sentMessages)
    ∧ (∀ st' : ClientState, (onOpen st').sentMessages = st'.sentMessages) := by
  refine ⟨?_, fun hw => ?_, fun hw => ?_, fun st' => rfl⟩
  · simp only [setQuality]
    split <;> rfl
  · simp [setQuality, hw]
  · simp [setQuality, hw]

/-- A client whose socket is gone (post-close), retaining default quality. -/
def closedSocketState : ClientState :=
  { connectedState with isConnected := false, wsOpen := false, wsPresent := false }

/-- Witness for C10: `setQuality("low")` on a closed socket records the
level, sends nothing, and a later `onopen` still sends nothing. -/
theorem setQuality_records_not_replayed_witness :
    (setQuality defaultConfig closedSocketState "low").currentQuality = "low"
    ∧ (setQuality defaultConfig closedSocketState "low").sentMessages
        = closedSocketState.sentMessages
    ∧ (onOpen (setQuality defaultConfig closedSocketState "low")).sentMessages
        = (setQuality defaultConfig closedSocketState "low").sentMessages :=
  have h := setQuality_records_not_replayed defaultConfig closedSocketState "low"
  ⟨h.1, h.2.2.1 (by decide), h.2.2.2 (setQuality defaultConfig closedSocketState "low")⟩
